import Mathlib

/-!
Verification of the pymedimage clustering pipeline (src/pymedimage/cluster.py)
against its design specification.

The Python module is shallowly embedded: pure numeric code becomes Lean
functions; Python exceptions become an explicit error type; functions from
external libraries (numpy, sklearn, scipy, and the rttypes collaborators) are
taken as parameters of the embedded wrappers, or, where a concrete model is
unavoidable, are modelled from their documented interfaces with a doc comment
saying so.  All intensity values are represented by rationals, vectors by
lists in the depth-row-major traversal order the source uses.
-/

set_option autoImplicit false

/-- Python exception classes that the embedded code can raise.  A value of
this type is the result of a raise statement reaching the caller. -/
inductive PyErr where
  | typeError
  | valueError
  | attributeError
  | nameError
  | indexError
deriving DecidableEq

deriving instance DecidableEq for Except

/-- Model of a CPython string object: its text together with whether this very
object is the interned compile-time literal of that text.  CPython interns the
identifier-like string constants appearing in the source (ward, maximum, ...),
so two occurrences of such a literal are the same object, while strings built
at run time are fresh objects. -/
structure PyStr where
  val : String
  interned : Bool
deriving DecidableEq

/-- Text lowering, via the per-character lowering CPython applies (written on
the character list so that it evaluates by kernel reduction). -/
def lowerStr (s : String) : String :=
  String.mk (s.data.map Char.toLower)

/-- Model of the Python expression s.lower().  CPython str.lower always
allocates a fresh (non-interned) string object; it never returns the receiver
and run-time results are not interned.  Hence the result is never the interned
literal object, whatever its text. -/
def pyLower (s : PyStr) : PyStr :=
  PyStr.mk (lowerStr s.val) false

/-- Model of the Python expression s is lit, comparing a string against an
interned multi-character literal by object identity: it is true only when s is
itself the interned object with that text. -/
def pyIsLit (s : PyStr) (lit : String) : Bool :=
  s.interned && (s.val == lit)

/- String constants of the source (kept as named definitions). -/

def wardStr : String := "ward"

def completeStr : String := "complete"

def maximumStr : String := "maximum"

def averageStr : String := "average"

def euclideanStr : String := "euclidean"

def cosineStr : String := "cosine"

def cityblockStr : String := "cityblock"

def singleStr : String := "single"

/-! ## Frame of reference, dense masks, pruning and expansion
(source: create_pruned_vector and expand_pruned_vector, cluster.py lines 28-99)
-/

/-- Grid metadata of a volume: size is the (x, y, z) voxel-count triple of the
source, spacing the physical voxel spacing triple. -/
structure FrameOfReference where
  size_x : Nat
  size_y : Nat
  size_z : Nat
  spacing : ℚ × ℚ × ℚ
deriving DecidableEq

/-- Dense binary mask volume, as produced by roi.makeDenseMask: an own size
triple plus the mask array, indexed array d r c in numpy order (z, y, x).
Keeping its size separate from any frame of reference lets the embedding
express a mask whose dense array disagrees with a volume size. -/
structure DenseMask where
  size_x : Nat
  size_y : Nat
  size_z : Nat
  array : Nat → Nat → Nat → Bool

/-- Traversal order of the source loops: for d in range(size_z): for r in
range(size_y): for c in range(size_x). -/
def forIndices (f : FrameOfReference) : List (Nat × Nat × Nat) :=
  (List.range f.size_z).flatMap (fun d =>
    (List.range f.size_y).flatMap (fun r =>
      (List.range f.size_x).map (fun c => (d, r, c))))

/-- Indexing densemaskvolume.array with d r c: numpy raises IndexError (here
none) when an index is outside the mask array bounds. -/
def maskLookup (roi : DenseMask) (idx : Nat × Nat × Nat) : Option Bool :=
  if idx.1 < roi.size_z ∧ idx.2.1 < roi.size_y ∧ idx.2.2 < roi.size_x then
    some (roi.array idx.1 idx.2.1 idx.2.2)
  else
    none

/-- The pruning loop of create_pruned_vector: walk the index list, append the
volume value wherever the dense mask reads 1, propagate an indexing error. -/
def pruneIdx {β : Type} (array : Nat → Nat → Nat → β) (roi : DenseMask) :
    List (Nat × Nat × Nat) → Option (List β)
  | [] => some []
  | idx :: rest =>
    match maskLookup roi idx with
    | none => none
    | some b =>
      match pruneIdx array roi rest with
      | none => none
      | some tail =>
        some (if b then array idx.1 idx.2.1 idx.2.2 :: tail else tail)

/-- The expansion loop of expand_pruned_vector: walk the index list, consume
one pruned element per mask-true voxel and emit the fill value elsewhere; an
exhausted pruned vector at a mask-true voxel is an indexing error, as is an
out-of-bounds mask read. -/
def expandIdx {β : Type} (roi : DenseMask) (fill : β) :
    List β → List (Nat × Nat × Nat) → Option (List β)
  | _, [] => some []
  | pv, idx :: rest =>
    match maskLookup roi idx with
    | none => none
    | some b =>
      if b then
        match pv with
        | [] => none
        | x :: xs =>
          match expandIdx roi fill xs rest with
          | none => none
          | some tail => some (x :: tail)
      else
        match expandIdx roi fill pv rest with
        | none => none
        | some tail => some (fill :: tail)

/-- Embedding of create_pruned_vector (volume passed as its array function and
frame of reference; roi passed as the dense mask it produces on that frame, or
none).  With no roi the source returns volume.vectorize(), the full flatten in
traversal order; with a roi it runs the pruning loop.  The final
reshape((-1, 1)) is shape bookkeeping only and the model keeps the flat list of
values. -/
def create_pruned_vector {β : Type} (array : Nat → Nat → Nat → β)
    (frameofreference : FrameOfReference) (roi : Option DenseMask) :
    Option (List β) :=
  match roi with
  | none => some ((forIndices frameofreference).map
      (fun idx => array idx.1 idx.2.1 idx.2.2))
  | some m => pruneIdx array m (forIndices frameofreference)

/-- Embedding of expand_pruned_vector.  With no roi the source reshapes the
vector onto the target frame (MaskableVolume().fromArray), an error when the
element count disagrees with the frame size; with a roi it runs the expansion
loop.  The resulting dense volume is represented by its value list in the same
traversal order. -/
def expand_pruned_vector {β : Type} (pruned_vector : List β)
    (roi : Option DenseMask) (frameofreference : FrameOfReference)
    (fill_value : β) : Option (List β) :=
  match roi with
  | none =>
    if pruned_vector.length =
        frameofreference.size_x * frameofreference.size_y *
          frameofreference.size_z then
      some pruned_vector
    else
      none
  | some m => expandIdx m fill_value pruned_vector (forIndices frameofreference)

/-! ## Clustering strategies
(source: cluster_kmeans, cluster_hierarchical_sklearn, cluster_hierarchical_scipy,
cluster.py lines 189-342)

The numeric estimators (sklearn StandardScaler, KMeans,
AgglomerativeClustering; scipy linkage and fcluster) are external libraries;
the embedded wrappers take them as function parameters.  The wrappers
themselves (type checks, string sanitisation, parameter validation, the
identity-comparison overrides, and the shape of the returned value) are
translated from the source. -/

/-- A numpy two-dimensional numeric array: a list of rows. -/
abbrev NDArray := List (List ℚ)

/-- A Python object passed as feature_matrix: either a numpy ndarray or
anything else (the isinstance check only distinguishes these two cases). -/
inductive PyObj where
  | ndarray (a : NDArray)
  | notArray
deriving DecidableEq

/-- Valid linkage list of cluster_hierarchical_sklearn (source line 260). -/
def valid_linkage : List String :=
  ["ward", "complete", "maximum", "average"]

/-- Valid affinity list of cluster_hierarchical_sklearn (source line 267). -/
def valid_affinity : List String :=
  ["l1", "l2", "manhattan", "cosine", "euclidean"]

/-- Module-level GLOBAL valid methods list for the scipy variant (source
lines 22-23). -/
def scipy_hcluster_valid_methods : List String :=
  ["ward", "single", "complete", "average", "weighted", "centroid", "median"]

/-- Module-level GLOBAL valid metrics list for the scipy variant (source
lines 24-25). -/
def scipy_hcluster_valid_metrics : List String :=
  ["euclidean", "cityblock", "minkowski", "sqeuclidean", "seuclidean", "cosine"]

/-- The sklearn AgglomerativeClustering estimator object as far as the
embedding observes it: the constructor parameters the wrapper hands it
(the second component of the wrapper result in the source). -/
structure AgglomerativeClustering where
  n_clusters : Nat
  affinity : String
  linkage : String
deriving DecidableEq

/-- Embedding of cluster_kmeans.  fit_transform is the StandardScaler
normalisation, km_predict n is the predict of a KMeans estimator constructed
with n_clusters = n and fitted on its argument.  A non-ndarray input is logged
and answered with None (ok none); nclusters at most 1 raises ValueError. -/
def cluster_kmeans (fit_transform : NDArray → NDArray)
    (km_predict : Nat → NDArray → List Nat)
    (feature_matrix : PyObj) (nclusters : Nat) :
    Except PyErr (Option (List Nat)) :=
  match feature_matrix with
  | PyObj.notArray => Except.ok none
  | PyObj.ndarray m =>
    if nclusters ≤ 1 then
      Except.error PyErr.valueError
    else
      let normalized_feature_matrix := fit_transform m
      Except.ok (some (km_predict nclusters normalized_feature_matrix))

/-- Embedding of cluster_hierarchical_sklearn.  fit_predict n a l is the
fit_predict of an AgglomerativeClustering estimator constructed with
n_clusters = n, affinity = a and linkage = l.  The source lowers both strings,
validates them against the closed lists, and performs the maximum-alias and
the ward-forces-euclidean assignments behind identity comparisons
(linkage is maximum, linkage is ward) on the freshly allocated lowered
strings; the returned value is the pair (prediction, estimator). -/
def cluster_hierarchical_sklearn (fit_transform : NDArray → NDArray)
    (fit_predict : Nat → String → String → NDArray → List Nat)
    (feature_matrix : PyObj) (nclusters : Nat) (affinity linkage : PyStr) :
    Except PyErr (List Nat × AgglomerativeClustering) :=
  match feature_matrix with
  | PyObj.notArray => Except.error PyErr.typeError
  | PyObj.ndarray m =>
    let linkage1 := pyLower linkage
    let affinity1 := pyLower affinity
    let normalized_feature_matrix := fit_transform m
    if valid_linkage.contains linkage1.val then
      let linkage2 :=
        if pyIsLit linkage1 maximumStr then PyStr.mk completeStr true
        else linkage1
      if valid_affinity.contains affinity1.val then
        let affinity2 :=
          if pyIsLit linkage2 wardStr then PyStr.mk euclideanStr true
          else affinity1
        let agg : AgglomerativeClustering :=
          AgglomerativeClustering.mk nclusters affinity2.val linkage2.val
        Except.ok
          (fit_predict nclusters affinity2.val linkage2.val
            normalized_feature_matrix, agg)
      else
        Except.error PyErr.valueError
    else
      Except.error PyErr.valueError

/-- Embedding of cluster_hierarchical_scipy.  sch_linkage x me mt is
scipy.cluster.hierarchy.linkage(x, method = me, metric = mt) producing an
opaque linkage matrix; sch_fcluster z n is
scipy.cluster.hierarchy.fcluster(z, n, criterion = maxclust).  The wrapper
mirrors the source: lower the strings, validate against the GLOBAL lists,
identity-compared maximum-alias and ward-forces-euclidean assignments, and the
returned pair (prediction, linkage_matrix). -/
def cluster_hierarchical_scipy {LinkMat : Type}
    (fit_transform : NDArray → NDArray)
    (sch_linkage : NDArray → String → String → LinkMat)
    (sch_fcluster : LinkMat → Nat → List Nat)
    (feature_matrix : PyObj) (nclusters : Nat) (metric method : PyStr) :
    Except PyErr (List Nat × LinkMat) :=
  match feature_matrix with
  | PyObj.notArray => Except.error PyErr.typeError
  | PyObj.ndarray m =>
    let method1 := pyLower method
    let metric1 := pyLower metric
    let normalized_feature_matrix := fit_transform m
    if scipy_hcluster_valid_methods.contains method1.val then
      let method2 :=
        if pyIsLit method1 maximumStr then PyStr.mk completeStr true
        else method1
      if scipy_hcluster_valid_metrics.contains metric1.val then
        let metric2 :=
          if pyIsLit method2 wardStr then PyStr.mk euclideanStr true
          else metric1
        let linkage_matrix :=
          sch_linkage normalized_feature_matrix method2.val metric2.val
        Except.ok (sch_fcluster linkage_matrix nclusters, linkage_matrix)
      else
        Except.error PyErr.valueError
    else
      Except.error PyErr.valueError

/-! ## Feature matrix assembly
(source: create_feature_matrix, cluster.py lines 102-186)

For this component the claims concern reference-grid selection, in-place
mutation of the selected frame of reference, acceptance and rejection of
volumes, and the empty-concatenation failure; a volume is therefore
represented by its metadata (frame of reference and numpy array shape) and
the numeric concatenation is abstracted to the list of accepted conformed
volumes.  conformTo is an external rttypes method and is a parameter. -/

/-- Metadata of a BaseVolume as the assembler observes it: its frame of
reference and the numpy shape of its array (z, y, x). -/
structure Volume where
  frameofreference : FrameOfReference
  shape : Nat × Nat × Nat
deriving DecidableEq

/-- An ROI as the assembler observes it: the frame of reference it carries. -/
structure Roi where
  frameofreference : FrameOfReference
deriving DecidableEq

/-- Result tuple of a successful assembly, reduced to what the claims
observe: the common frame of reference placed in the result, and the accepted
conformed volumes in input order (one feature column each). -/
structure AsmOut where
  frameofreference : FrameOfReference
  accepted : List Volume
deriving DecidableEq

/-- Product of the three spacing components, np.product(f.spacing): the voxel
volume used as the resolution measure. -/
def spacingProd (s : ℚ × ℚ × ℚ) : ℚ :=
  s.1 * s.2.1 * s.2.2

/-- Resolution measure of a volume (smaller product means higher
resolution). -/
def volRes (v : Volume) : ℚ :=
  spacingProd v.frameofreference.spacing

/-- Reference shape: frameofreference.size reversed from (x, y, z) to the
numpy order (z, y, x) (source line 137). -/
def refShape (f : FrameOfReference) : Nat × Nat × Nat :=
  (f.size_z, f.size_y, f.size_x)

/-- The common-resolution override (source line 134): the selected frame of
reference with its spacing overwritten by (1, 1, 1). -/
def overrideSpacing (f : FrameOfReference) : FrameOfReference :=
  { f with spacing := (1, 1, 1) }

/-- The selection loop over feature_volumes[1:] (source lines 124-130),
carrying the index of the current best volume so that the in-place spacing
mutation can be located in the list; best starts as (0, feature_volumes[0])
and is replaced exactly when a strictly smaller spacing product is seen. -/
def scanHighestRes : Nat × Volume → Nat → List Volume → Nat × Volume
  | best, _, [] => best
  | best, i, u :: rest =>
    if volRes u < volRes best.2 then
      scanHighestRes (i, u) (i + 1) rest
    else
      scanHighestRes best (i + 1) rest

/-- Selection of the highest-resolution volume (index and volume) from a
non-empty volume list given as head and tail. -/
def selectHighestRes (v : Volume) (rest : List Volume) : Nat × Volume :=
  scanHighestRes (0, v) 1 rest

/-- One step of the acceptance loop (source lines 144-167): a None entry is
dropped; otherwise the volume is conformed onto the reference frame and
dropped when its resampled shape disagrees with the reference shape. -/
def conformAccept (conform : Volume → FrameOfReference → Volume)
    (f : FrameOfReference) (ov : Option Volume) : Option Volume :=
  match ov with
  | none => none
  | some v =>
    let conformed_volume := conform v f
    if conformed_volume.shape = refShape f then some conformed_volume else none

/-- The acceptance loop followed by np.concatenate (source lines 140-172):
concatenating an empty list of accepted columns raises ValueError; otherwise
the assembly result is returned. -/
def assembleAccepted (conform : Volume → FrameOfReference → Volume)
    (vols : List (Option Volume)) (f : FrameOfReference) :
    Except PyErr (Option AsmOut) :=
  let accepted := vols.filterMap (conformAccept conform f)
  if accepted.isEmpty then
    Except.error PyErr.valueError
  else
    Except.ok (some (AsmOut.mk f accepted))

/-- Embedding of create_feature_matrix (PCA = False path; the PCA branch only
post-processes the abstracted numeric matrix).  The result is the pair of the
returned value (ok none models the Python return None on an empty input) and
the input volume list as it stands after the call, so that the in-place
spacing mutation of the selected volume is observable.  A None entry in the
list makes the no-roi resolution scan dereference None.frameofreference,
an AttributeError. -/
def create_feature_matrix (conform : Volume → FrameOfReference → Volume)
    (feature_volumes : List (Option Volume)) (roi : Option Roi) :
    Except PyErr (Option AsmOut) × List (Option Volume) :=
  match feature_volumes with
  | [] => (Except.ok none, [])
  | v0 :: vrest =>
    match roi with
    | some r =>
      (assembleAccepted conform (v0 :: vrest) r.frameofreference, v0 :: vrest)
    | none =>
      match v0 with
      | none => (Except.error PyErr.attributeError, v0 :: vrest)
      | some v =>
        if vrest.any (fun ov => ov.isNone) then
          (Except.error PyErr.attributeError, v0 :: vrest)
        else
          let vs := vrest.filterMap id
          let sel := selectHighestRes v vs
          let newF := overrideSpacing sel.2.frameofreference
          let newVol : Volume := { sel.2 with frameofreference := newF }
          let store2 := (some v :: vrest).set sel.1 (some newVol)
          (assembleAccepted conform store2 newF, store2)

/-! ## Subject work unit and batch worker
(source: DOICluster lines 345-420 and worker_DOICluster lines 422-450)

The work unit collaborators (path accessors, volume loading, feature file
lookup, pickling) are external; a subject is represented by the facts those
collaborators report, and the unit result by its status code together with
whether the output was written by this call. -/

/-- A subject (DOI) as the work unit observes it through its accessors. -/
structure Doi where
  clusterPickleExists : Bool
  hasImageVolume : Bool
  hasROI : Bool
  featureFilesFound : Bool
deriving DecidableEq

/-- Embedding of DOICluster for a single subject (the source wraps a bare doi
into a one-element list).  Returns the status code and whether this call wrote
the cluster output. -/
def DOICluster (doi : Doi) (recluster : Bool) : Int × Bool :=
  if doi.clusterPickleExists && !recluster then
    (10, false)
  else
    let reclustered := doi.clusterPickleExists
    if !doi.hasImageVolume || !doi.hasROI then
      (1, false)
    else if !doi.featureFilesFound then
      (1, false)
    else if reclustered then
      (11, true)
    else
      (0, true)

/- Worker result labels. -/

def successLabel : String := "success"

def missingDataLabel : String := "missing data"

def skippedLabel : String := "skipped"

def recalcLabel : String := "recalc"

def unknownLabel : String := "unknown"

def exceptionLabel : String := "exception"

/-- Embedding of worker_DOICluster over an argument tuple of subject-typed
entries.  unit args is the outcome of DOICluster(*args, recluster = True)
(ok code, or error for a raised exception).  A tuple with fewer than three
elements makes the unpacking raise inside the try block: the handler runs, but
the final return statement then reads the never-assigned local doi and raises
NameError (UnboundLocalError) outside the try.  The elapsed wall-clock string
of the source result tuple is real time and is left out of the embedding. -/
def worker_DOICluster {α : Type} (unit : List α → Except PyErr Int)
    (args_tuple : List α) : Except PyErr (Int × String × α) :=
  match args_tuple with
  | doi :: b :: c :: rest =>
    match unit (doi :: b :: c :: rest) with
    | Except.error _ => Except.ok (2, exceptionLabel, doi)
    | Except.ok result_code =>
      if result_code = 0 then Except.ok (0, successLabel, doi)
      else if result_code = 1 then Except.ok (1, missingDataLabel, doi)
      else if result_code = 10 then Except.ok (10, skippedLabel, doi)
      else if result_code = 11 then Except.ok (11, recalcLabel, doi)
      else Except.ok (-1, unknownLabel, doi)
  | _ => Except.error PyErr.nameError

/-- Specification-side normalisation of a unit outcome into the worker result
tuple: exceptions become code 2 with the exception label, the four recognised
codes keep their codes and labels, anything else becomes code -1 with the
unknown label; the subject identifier is the first tuple element. -/
def expectedWorkerResult {α : Type} (unitResult : Except PyErr Int) (doi : α) :
    Int × String × α :=
  match unitResult with
  | Except.error _ => (2, exceptionLabel, doi)
  | Except.ok code =>
    if code = 0 then (0, successLabel, doi)
    else if code = 1 then (1, missingDataLabel, doi)
    else if code = 10 then (10, skippedLabel, doi)
    else if code = 11 then (11, recalcLabel, doi)
    else (-1, unknownLabel, doi)

/-! ## Concrete instances used by witnesses and counterexamples -/

/-- A 2 by 1 by 1 frame of reference with unit spacing. -/
def f0 : FrameOfReference := FrameOfReference.mk 2 1 1 (1, 1, 1)

/-- Dense mask on f0 marking only the voxel with c = 0. -/
def roi0 : DenseMask := DenseMask.mk 2 1 1 (fun _ _ c => c == 0)

/-- A concrete intensity array on f0. -/
def arr0 : Nat → Nat → Nat → ℚ := fun _ _ c => (c : ℚ) + 5

/-- A single-voxel frame of reference. -/
def f1 : FrameOfReference := FrameOfReference.mk 1 1 1 (1, 1, 1)

/-- An all-true dense mask strictly larger than f1 in every dimension. -/
def roiBig : DenseMask := DenseMask.mk 2 2 2 (fun _ _ _ => true)

/-- A 2 by 1 by 1 frame of reference (two voxels along x). -/
def f2 : FrameOfReference := FrameOfReference.mk 2 1 1 (1, 1, 1)

/-- An all-true dense mask smaller than f2 along x. -/
def roiSmall : DenseMask := DenseMask.mk 1 1 1 (fun _ _ _ => true)

/-- A concrete 2 by 1 feature matrix. -/
def mat0 : NDArray := [[0], [10]]

/-- The interned string literal ward as a Python string object. -/
def wardPy : PyStr := PyStr.mk wardStr true

/-- The interned string literal euclidean as a Python string object. -/
def euclideanPy : PyStr := PyStr.mk euclideanStr true

/-- The interned string literal cosine as a Python string object. -/
def cosinePy : PyStr := PyStr.mk cosineStr true

/-- The interned string literal cityblock as a Python string object. -/
def cityblockPy : PyStr := PyStr.mk cityblockStr true

/-- The interned string literal single as a Python string object. -/
def singlePy : PyStr := PyStr.mk singleStr true

/-- An out-of-domain metric string. -/
def garbageStr : String := "garbage"

/-- The out-of-domain metric string as a Python string object. -/
def garbagePy : PyStr := PyStr.mk garbageStr true

/-- Identity stand-in for StandardScaler fit_transform: it preserves the row
count, which is the only property the theorems assume of the scaler. -/
def idScaler : NDArray → NDArray := fun x => x

/-- Toy KMeans predict satisfying the documented sklearn contract (one label
per row, labels in the interval from 0 up to n_clusters excluded). -/
def km0 : Nat → NDArray → List Nat := fun _ x => x.map (fun _ => 0)

/-- Toy AgglomerativeClustering fit_predict satisfying the documented sklearn
contract (one label per row, labels in the interval from 0 up to n_clusters
excluded). -/
def fitp0 : Nat → String → String → NDArray → List Nat :=
  fun _ _ _ x => x.map (fun _ => 0)

/-- Modelled from the spec: scipy.cluster.hierarchy.linkage is external code
not under src/ (spec 4.3, library B: a linkage matrix built from N singleton
clusters).  The linkage matrix is abstracted to the number of observations it
encodes, which is all the flat-cluster cut needs here. -/
def sch_linkage_model : NDArray → String → String → Nat :=
  fun x _ _ => x.length

/-- Modelled from the spec: scipy.cluster.hierarchy.fcluster is external code
not under src/ (spec 4.3, library B: a flat-cluster cut of the linkage matrix
at a fixed cluster count).  Its documented return value is the array T of
length n where T i is the flat cluster number of observation i, and flat
cluster numbers are 1-based: cutting n observations at maxclust k yields
numbers in the interval from 1 to k; in particular two observations cut at
maxclust 2 receive the numbers 1 and 2. -/
def sch_fcluster_model : Nat → Nat → List Nat :=
  fun z k => (List.range z).map (fun i => i % k + 1)

/-- Recording stand-in for fit_predict used to observe the parameters the
wrapper passes to the estimator. -/
def fitpEmpty : Nat → String → String → NDArray → List Nat :=
  fun _ _ _ _ => []

/-- Recording stand-in for scipy linkage: the linkage matrix is the pair of
the method and metric strings actually passed in. -/
def schlinkPair : NDArray → String → String → String × String :=
  fun _ me mt => (me, mt)

/-- Stand-in fcluster for the recording linkage matrix. -/
def schfcEmpty : String × String → Nat → List Nat := fun _ _ => []

/-- External conformTo stand-in that resamples onto the target frame and
reports the matching shape (a new instance, as the rttypes contract says). -/
def conform0 : Volume → FrameOfReference → Volume :=
  fun _ f => Volume.mk f (refShape f)

/-- External conformTo stand-in that returns the volume unchanged, so that a
volume with a mismatched shape stays mismatched. -/
def conformId : Volume → FrameOfReference → Volume := fun v _ => v

/-- A low-resolution volume with spacing (3, 3, 3). -/
def va0 : Volume :=
  Volume.mk (FrameOfReference.mk 4 4 4 (3, 3, 3)) (4, 4, 4)

/-- A higher-resolution volume with spacing (2, 2, 2). -/
def vb0 : Volume :=
  Volume.mk (FrameOfReference.mk 2 2 2 (2, 2, 2)) (2, 2, 2)

/-- The frame of vb0 after the common-resolution override. -/
def newF0 : FrameOfReference := FrameOfReference.mk 2 2 2 (1, 1, 1)

/-- The assembly output of create_feature_matrix on [some va0, some vb0] with
no roi under conform0. -/
def out0 : AsmOut :=
  AsmOut.mk newF0 [Volume.mk newF0 (2, 2, 2), Volume.mk newF0 (2, 2, 2)]

/-- A volume whose (unchanged) shape disagrees with every reference shape
used in the tests below. -/
def vbad0 : Volume :=
  Volume.mk (FrameOfReference.mk 1 1 1 (1, 1, 1)) (9, 9, 9)

/-- A concrete ROI with a single-voxel frame. -/
def r0 : Roi := Roi.mk (FrameOfReference.mk 1 1 1 (1, 1, 1))

/-- A subject with no existing cluster output and all inputs present. -/
def doiFresh : Doi := Doi.mk false true true true

/-- A subject with an existing cluster output and all inputs present. -/
def doiExisting : Doi := Doi.mk true true true true

/-- A unit call outcome that always succeeds with code 0. -/
def unitOk0 : List Nat → Except PyErr Int := fun _ => Except.ok 0

/-- A unit call outcome producing an unrecognised status code. -/
def unitOk7 : List Nat → Except PyErr Int := fun _ => Except.ok 7

/-! ## Helper lemmas -/

theorem mem_forIndices {f : FrameOfReference} {idx : Nat × Nat × Nat} :
    idx ∈ forIndices f ↔
      idx.1 < f.size_z ∧ idx.2.1 < f.size_y ∧ idx.2.2 < f.size_x := by
  obtain ⟨d, r, c⟩ := idx
  simp only [forIndices, List.mem_flatMap, List.mem_map, List.mem_range,
    Prod.mk.injEq]
  constructor
  · rintro ⟨d1, hd1, r1, hr1, c1, hc1, e1, e2, e3⟩
    subst e1; subst e2; subst e3
    exact ⟨hd1, hr1, hc1⟩
  · rintro ⟨hd, hr, hc⟩
    exact ⟨d, hd, r, hr, c, hc, rfl, rfl, rfl⟩

theorem maskLookup_inBounds {m : DenseMask} {idx : Nat × Nat × Nat}
    (h : idx.1 < m.size_z ∧ idx.2.1 < m.size_y ∧ idx.2.2 < m.size_x) :
    maskLookup m idx = some (m.array idx.1 idx.2.1 idx.2.2) := by
  simp [maskLookup, h]

theorem prune_expand_aux {β : Type} (array : Nat → Nat → Nat → β)
    (m : DenseMask) (fill : β) :
    ∀ idxs : List (Nat × Nat × Nat),
      (∀ idx ∈ idxs,
        idx.1 < m.size_z ∧ idx.2.1 < m.size_y ∧ idx.2.2 < m.size_x) →
      ∃ pv, pruneIdx array m idxs = some pv ∧
        expandIdx m fill pv idxs =
          some (idxs.map (fun idx =>
            if m.array idx.1 idx.2.1 idx.2.2 then array idx.1 idx.2.1 idx.2.2
            else fill)) := by
  intro idxs
  induction idxs with
  | nil =>
    intro _
    exact ⟨[], rfl, rfl⟩
  | cons idx rest ih =>
    intro hb
    have hidx := maskLookup_inBounds (m := m) (hb idx (by simp))
    obtain ⟨pv, hp, he⟩ := ih (fun i hi => hb i (by simp [hi]))
    by_cases harr : m.array idx.1 idx.2.1 idx.2.2
    · refine ⟨array idx.1 idx.2.1 idx.2.2 :: pv, ?_, ?_⟩
      · simp [pruneIdx, hidx, hp, harr]
      · simp [expandIdx, hidx, harr, he]
    · refine ⟨pv, ?_, ?_⟩
      · simp [pruneIdx, hidx, hp, harr]
      · simp [expandIdx, hidx, harr, he]

theorem pruneIdx_none_iff {β : Type} (array : Nat → Nat → Nat → β)
    (m : DenseMask) :
    ∀ idxs : List (Nat × Nat × Nat),
      (pruneIdx array m idxs = none ↔ ∃ idx ∈ idxs, maskLookup m idx = none) := by
  intro idxs
  induction idxs with
  | nil => simp [pruneIdx]
  | cons idx rest ih =>
    cases hidx : maskLookup m idx with
    | none =>
      simp only [pruneIdx, hidx]
      constructor
      · intro _
        exact ⟨idx, by simp, hidx⟩
      · intro _
        trivial
    | some b =>
      cases hrest : pruneIdx array m rest with
      | none =>
        simp only [pruneIdx, hidx, hrest]
        constructor
        · intro _
          obtain ⟨i, hi, hlook⟩ := ih.mp hrest
          exact ⟨i, by simp [hi], hlook⟩
        · intro _
          trivial
      | some tail =>
        simp only [pruneIdx, hidx, hrest]
        constructor
        · intro h; exact absurd h (by simp)
        · rintro ⟨i, hi, hlook⟩
          rcases List.mem_cons.mp hi with h1 | h1
          · subst h1; rw [hidx] at hlook; exact absurd hlook (by simp)
          · have := ih.mpr ⟨i, h1, hlook⟩
            rw [hrest] at this
            exact absurd this (by simp)

theorem filterMap_id_map_some {α : Type} (l : List α) :
    (l.map some).filterMap id = l := by
  induction l with
  | nil => rfl
  | cons a t ih => simp [List.filterMap_cons, ih]

theorem any_isNone_map_some {α : Type} (l : List α) :
    ((l.map some).any (fun ov => ov.isNone)) = false := by
  induction l with
  | nil => rfl
  | cons a t ih => simp [ih]

theorem scanHighestRes_mem :
    ∀ (rest : List Volume) (best : Nat × Volume) (i : Nat),
      (scanHighestRes best i rest).2 = best.2 ∨
        (scanHighestRes best i rest).2 ∈ rest := by
  intro rest
  induction rest with
  | nil => intro best i; exact Or.inl rfl
  | cons u t ih =>
    intro best i
    simp only [scanHighestRes]
    by_cases hlt : volRes u < volRes best.2
    · simp only [if_pos hlt]
      rcases ih (i, u) (i + 1) with h | h
      · exact Or.inr (by simp [h])
      · exact Or.inr (by simp [h])
    · simp only [if_neg hlt]
      rcases ih best (i + 1) with h | h
      · exact Or.inl h
      · exact Or.inr (by simp [h])

theorem scanHighestRes_min :
    ∀ (rest : List Volume) (best : Nat × Volume) (i : Nat),
      volRes (scanHighestRes best i rest).2 ≤ volRes best.2 ∧
        ∀ u ∈ rest, volRes (scanHighestRes best i rest).2 ≤ volRes u := by
  intro rest
  induction rest with
  | nil => intro best i; exact ⟨le_refl _, by simp⟩
  | cons u t ih =>
    intro best i
    simp only [scanHighestRes]
    by_cases hlt : volRes u < volRes best.2
    · simp only [if_pos hlt]
      obtain ⟨h1, h2⟩ := ih (i, u) (i + 1)
      refine ⟨le_of_lt (lt_of_le_of_lt h1 hlt), ?_⟩
      intro w hw
      rcases List.mem_cons.mp hw with h | h
      · subst h; exact h1
      · exact h2 w h
    · simp only [if_neg hlt]
      obtain ⟨h1, h2⟩ := ih best (i + 1)
      refine ⟨h1, ?_⟩
      intro w hw
      rcases List.mem_cons.mp hw with h | h
      · subst h; exact le_trans h1 (le_of_not_lt hlt)
      · exact h2 w h

theorem scanHighestRes_get :
    ∀ (rest : List Volume) (best : Nat × Volume) (i : Nat) (l : List Volume),
      l.get? best.1 = some best.2 →
      (∀ j, rest.get? j = l.get? (i + j)) →
      l.get? (scanHighestRes best i rest).1 =
        some (scanHighestRes best i rest).2 := by
  intro rest
  induction rest with
  | nil => intro best i l hbest _; exact hbest
  | cons u t ih =>
    intro best i l hbest hrest
    have hu : l.get? i = some u := by
      have := hrest 0
      simpa using this.symm
    have ht : ∀ j, t.get? j = l.get? (i + 1 + j) := by
      intro j
      have := hrest (j + 1)
      simpa [Nat.add_assoc, Nat.add_comm 1 j] using this
    simp only [scanHighestRes]
    by_cases hlt : volRes u < volRes best.2
    · simp only [if_pos hlt]
      exact ih (i, u) (i + 1) l hu ht
    · simp only [if_neg hlt]
      exact ih best (i + 1) l hbest ht

/-! ## Claim C1 -/

/-- C1: for every volume and every mask (a dense mask whose size agrees with
the volume frame of reference, as roi.makeDenseMask on that frame produces),
expanding the pruned vector of the volume back onto the volume frame of
reference yields a dense volume that carries the original value at every
mask-true voxel and the fill value at every mask-false voxel. -/
theorem C1_roundtrip {β : Type} (array : Nat → Nat → Nat → β)
    (f : FrameOfReference) (roi : DenseMask) (fill_value : β)
    (hx : roi.size_x = f.size_x) (hy : roi.size_y = f.size_y)
    (hz : roi.size_z = f.size_z) :
    ∃ pv, create_pruned_vector array f (some roi) = some pv ∧
      expand_pruned_vector pv (some roi) f fill_value =
        some ((forIndices f).map (fun idx =>
          if roi.array idx.1 idx.2.1 idx.2.2 then array idx.1 idx.2.1 idx.2.2
          else fill_value)) := by
  have hb : ∀ idx ∈ forIndices f,
      idx.1 < roi.size_z ∧ idx.2.1 < roi.size_y ∧ idx.2.2 < roi.size_x := by
    intro idx hidx
    rw [hx, hy, hz]
    exact mem_forIndices.mp hidx
  obtain ⟨pv, hp, he⟩ := prune_expand_aux array roi fill_value (forIndices f) hb
  exact ⟨pv, hp, he⟩

/-- Witness for C1 at a concrete two-voxel volume and a mask selecting one of
the voxels. -/
theorem C1_roundtrip_witness :
    ∃ pv, create_pruned_vector arr0 f0 (some roi0) = some pv ∧
      expand_pruned_vector pv (some roi0) f0 (-1) =
        some ((forIndices f0).map (fun idx =>
          if roi0.array idx.1 idx.2.1 idx.2.2 then arr0 idx.1 idx.2.1 idx.2.2
          else -1)) :=
  C1_roundtrip arr0 f0 roi0 (-1) rfl rfl rfl

/-! ## Claim C5 -/

/-- C5 counterexample: a dense mask strictly larger than the volume in every
dimension disagrees with the volume size, yet create_pruned_vector does not
fail: it returns the pruned vector of the covered subregion. -/
theorem C5_oversized_mask_counterexample :
    ¬(roiBig.size_x = f1.size_x ∧ roiBig.size_y = f1.size_y ∧
        roiBig.size_z = f1.size_z) ∧
      create_pruned_vector (fun _ _ _ => (7 : ℚ)) f1 (some roiBig) =
        some [7] := by
  constructor
  · decide
  · rfl

/-- C5 amended: create_pruned_vector performs no shape check; with a mask
present it fails (with an indexing error, modelled as none) exactly when some
traversed volume index lies outside the dense mask array bounds — in
particular whenever the mask is smaller than the volume along a traversed
dimension — and whenever the mask array covers the full traversal range (for
example a strictly larger mask) it returns a pruned vector instead of
failing. -/
theorem C5_prune_failure_iff {β : Type} (array : Nat → Nat → Nat → β)
    (f : FrameOfReference) (roi : DenseMask) :
    create_pruned_vector array f (some roi) = none ↔
      ∃ idx ∈ forIndices f, maskLookup roi idx = none :=
  pruneIdx_none_iff array roi (forIndices f)

/-- Witness for C5 amended: a mask smaller than the volume along x makes
create_pruned_vector fail with the indexing error. -/
theorem C5_prune_failure_iff_witness :
    create_pruned_vector (fun _ _ _ => (0 : ℚ)) f2 (some roiSmall) = none :=
  (C5_prune_failure_iff (fun _ _ _ => (0 : ℚ)) f2 roiSmall).mpr
    ⟨(0, 0, 1), by decide, by decide⟩

/-! ## Claim C3 -/

/-- C3 counterexample: on a non-ndarray input cluster_kmeans does not fail
with a type error; it logs a warning and returns None (a value), so the claim
that each of the three strategies fails with TypeMismatch is false. -/
theorem C3_kmeans_returns_none_counterexample :
    cluster_kmeans idScaler km0 PyObj.notArray 5 = Except.ok none := rfl

/-- C3 amended: on a non-ndarray input the two agglomerative strategies raise
TypeError (TypeMismatch), while cluster_kmeans instead returns None without
raising, for every choice of backends and parameters. -/
theorem C3_type_check_amended {LinkMat : Type}
    (fit_transform : NDArray → NDArray)
    (km_predict : Nat → NDArray → List Nat)
    (fit_predict : Nat → String → String → NDArray → List Nat)
    (sch_linkage : NDArray → String → String → LinkMat)
    (sch_fcluster : LinkMat → Nat → List Nat)
    (nclusters : Nat) (affinity linkage metric method : PyStr) :
    cluster_kmeans fit_transform km_predict PyObj.notArray nclusters =
        Except.ok none ∧
      cluster_hierarchical_sklearn fit_transform fit_predict PyObj.notArray
          nclusters affinity linkage = Except.error PyErr.typeError ∧
      cluster_hierarchical_scipy fit_transform sch_linkage sch_fcluster
          PyObj.notArray nclusters metric method =
        Except.error PyErr.typeError :=
  ⟨rfl, rfl, rfl⟩

/-! ## Claim C4 -/

/-- C4 (code-bug evaluation): requesting ward linkage together with a
non-euclidean metric does not replace the metric by euclidean — the identity
comparisons (linkage is ward, method is ward) on the freshly allocated lowered
strings never succeed, so the requested strings reach the estimator and the
linkage call unchanged (first two conjuncts) — while an out-of-domain metric
with a non-ward method does raise ValueError (third conjunct). -/
theorem C4_ward_override_never_fires :
    cluster_hierarchical_sklearn idScaler fitpEmpty (PyObj.ndarray mat0) 2
        cosinePy wardPy =
      Except.ok ([], AgglomerativeClustering.mk 2 cosineStr wardStr) ∧
    cluster_hierarchical_scipy idScaler schlinkPair schfcEmpty
        (PyObj.ndarray mat0) 2 cityblockPy wardPy =
      Except.ok ([], (wardStr, cityblockStr)) ∧
    cluster_hierarchical_scipy idScaler schlinkPair schfcEmpty
        (PyObj.ndarray mat0) 2 garbagePy singlePy =
      Except.error PyErr.valueError := by
  refine ⟨?_, ?_, ?_⟩ <;> decide

/-! ## Claim C2 -/

/-- C2 counterexample: under the documented interface of the scipy
flat-cluster cut (1-based flat cluster numbers), cluster_hierarchical_scipy
on a two-row matrix with k = 2 yields the label vector [1, 2], whose entries
are not all in the half-open range [0, 2). -/
theorem C2_scipy_label_range_counterexample :
    cluster_hierarchical_scipy idScaler sch_linkage_model sch_fcluster_model
        (PyObj.ndarray mat0) 2 euclideanPy wardPy =
      Except.ok ([1, 2], 2) ∧
      ¬(∀ l ∈ [1, 2], l < 2) := by
  constructor
  · decide
  · decide

/-- C2 amended: whenever the backends meet their documented contracts, each
strategy on an ndarray with k greater than 1 succeeds and returns one label
per input row; the k-means and sklearn agglomerative labels lie in the
half-open range [0, k) (the latter inside the returned
(prediction, estimator) pair), while the scipy agglomerative labels, being
1-based flat cluster numbers, lie in the closed range [1, k] inside the
returned (prediction, linkage-matrix) pair. -/
theorem C2_label_contracts {LinkMat : Type}
    (fit_transform : NDArray → NDArray)
    (km_predict : Nat → NDArray → List Nat)
    (fit_predict : Nat → String → String → NDArray → List Nat)
    (sch_linkage : NDArray → String → String → LinkMat)
    (sch_fcluster : LinkMat → Nat → List Nat)
    (m : NDArray) (k : Nat) (hk : 1 < k)
    (hscaler : ∀ x, (fit_transform x).length = x.length)
    (hkm : ∀ n x, 1 < n →
      (km_predict n x).length = x.length ∧ ∀ l ∈ km_predict n x, l < n)
    (hfit : ∀ n a lk x, 1 < n →
      (fit_predict n a lk x).length = x.length ∧
        ∀ l ∈ fit_predict n a lk x, l < n)
    (hfc : ∀ x me mt n, 1 < n →
      (sch_fcluster (sch_linkage x me mt) n).length = x.length ∧
        ∀ l ∈ sch_fcluster (sch_linkage x me mt) n, 1 ≤ l ∧ l ≤ n) :
    (∃ labels, cluster_kmeans fit_transform km_predict (PyObj.ndarray m) k =
        Except.ok (some labels) ∧ labels.length = m.length ∧
        ∀ l ∈ labels, l < k)
    ∧ (∃ labels est,
        cluster_hierarchical_sklearn fit_transform fit_predict
            (PyObj.ndarray m) k euclideanPy wardPy =
          Except.ok (labels, est) ∧ labels.length = m.length ∧
          ∀ l ∈ labels, l < k)
    ∧ (∃ labels lm,
        cluster_hierarchical_scipy fit_transform sch_linkage sch_fcluster
            (PyObj.ndarray m) k euclideanPy wardPy =
          Except.ok (labels, lm) ∧ labels.length = m.length ∧
          ∀ l ∈ labels, 1 ≤ l ∧ l ≤ k) := by
  refine ⟨?_, ?_, ?_⟩
  · refine ⟨km_predict k (fit_transform m), ?_, ?_, ?_⟩
    · simp only [cluster_kmeans]
      rw [if_neg (by omega)]
    · exact (hkm k (fit_transform m) hk).1.trans (hscaler m)
    · exact (hkm k (fit_transform m) hk).2
  · refine ⟨fit_predict k euclideanStr wardStr (fit_transform m),
      AgglomerativeClustering.mk k euclideanStr wardStr, rfl, ?_, ?_⟩
    · exact (hfit k euclideanStr wardStr (fit_transform m) hk).1.trans
        (hscaler m)
    · exact (hfit k euclideanStr wardStr (fit_transform m) hk).2
  · refine ⟨sch_fcluster (sch_linkage (fit_transform m) wardStr euclideanStr) k,
      sch_linkage (fit_transform m) wardStr euclideanStr, rfl, ?_, ?_⟩
    · exact (hfc (fit_transform m) wardStr euclideanStr k hk).1.trans
        (hscaler m)
    · exact (hfc (fit_transform m) wardStr euclideanStr k hk).2

/-- Witness for C2 amended at a concrete two-row matrix with toy backends
that satisfy the documented contracts. -/
theorem C2_label_contracts_witness :
    (∃ labels, cluster_kmeans idScaler km0 (PyObj.ndarray mat0) 2 =
        Except.ok (some labels) ∧ labels.length = mat0.length ∧
        ∀ l ∈ labels, l < 2)
    ∧ (∃ labels est,
        cluster_hierarchical_sklearn idScaler fitp0 (PyObj.ndarray mat0) 2
            euclideanPy wardPy =
          Except.ok (labels, est) ∧ labels.length = mat0.length ∧
          ∀ l ∈ labels, l < 2)
    ∧ (∃ labels lm,
        cluster_hierarchical_scipy idScaler sch_linkage_model
            sch_fcluster_model (PyObj.ndarray mat0) 2 euclideanPy wardPy =
          Except.ok (labels, lm) ∧ labels.length = mat0.length ∧
          ∀ l ∈ labels, 1 ≤ l ∧ l ≤ 2) :=
  C2_label_contracts idScaler km0 fitp0 sch_linkage_model sch_fcluster_model
    mat0 2 (by omega)
    (fun _ => rfl)
    (by
      intro n x hn
      refine ⟨by simp [km0], ?_⟩
      intro l hl
      simp only [km0, List.mem_map] at hl
      obtain ⟨a, _, ha⟩ := hl
      omega)
    (by
      intro n a lk x hn
      refine ⟨by simp [fitp0], ?_⟩
      intro l hl
      simp only [fitp0, List.mem_map] at hl
      obtain ⟨b, _, hb⟩ := hl
      omega)
    (by
      intro x me mt n hn
      refine ⟨by simp [sch_fcluster_model, sch_linkage_model], ?_⟩
      intro l hl
      simp only [sch_fcluster_model, sch_linkage_model, List.mem_map,
        List.mem_range] at hl
      obtain ⟨i, _, hi⟩ := hl
      have hmod : i % n < n := Nat.mod_lt i (by omega)
      omega)

/-! ## Claim C6 -/

/-- C6: with no roi supplied and a non-empty, all-present volume list,
create_feature_matrix selects a volume attaining the smallest voxel volume
(spacing product) as the reference — the chosen volume is a member of the
list and its spacing product is minimal over the whole list, so the choice
does not depend on the list order, and under a unique minimiser the chosen
volume is invariant under permutation of the input — and the frame of
reference placed in the assembly result is that volume frame with its
spacing overridden to (1, 1, 1). -/
theorem C6_reference_selection
    (conform : Volume → FrameOfReference → Volume) (v : Volume)
    (rest : List Volume) :
    ((selectHighestRes v rest).2 ∈ v :: rest)
    ∧ (∀ u ∈ v :: rest, volRes (selectHighestRes v rest).2 ≤ volRes u)
    ∧ (∀ v2 rest2, (v2 :: rest2).Perm (v :: rest) →
        (∀ u ∈ v :: rest, u ≠ (selectHighestRes v rest).2 →
          volRes (selectHighestRes v rest).2 < volRes u) →
        (selectHighestRes v2 rest2).2 = (selectHighestRes v rest).2)
    ∧ (∀ out,
        (create_feature_matrix conform ((v :: rest).map some) none).1 =
          Except.ok (some out) →
        out.frameofreference =
          overrideSpacing (selectHighestRes v rest).2.frameofreference) := by
  have hmem : (selectHighestRes v rest).2 ∈ v :: rest := by
    rcases scanHighestRes_mem rest (0, v) 1 with h | h
    · rw [List.mem_cons]; exact Or.inl h
    · rw [List.mem_cons]; exact Or.inr h
  have hmin : ∀ u ∈ v :: rest, volRes (selectHighestRes v rest).2 ≤ volRes u := by
    intro u hu
    obtain ⟨h1, h2⟩ := scanHighestRes_min rest (0, v) 1
    rcases List.mem_cons.mp hu with h | h
    · subst h; exact h1
    · exact h2 u h
  refine ⟨hmem, hmin, ?_, ?_⟩
  · intro v2 rest2 hperm huniq
    have hmem2 : (selectHighestRes v2 rest2).2 ∈ v :: rest := by
      have : (selectHighestRes v2 rest2).2 ∈ v2 :: rest2 := by
        rcases scanHighestRes_mem rest2 (0, v2) 1 with h | h
        · rw [List.mem_cons]; exact Or.inl h
        · rw [List.mem_cons]; exact Or.inr h
      exact hperm.mem_iff.mp this
    have hmin2 : volRes (selectHighestRes v2 rest2).2 ≤
        volRes (selectHighestRes v rest).2 := by
      have hw : (selectHighestRes v rest).2 ∈ v2 :: rest2 :=
        hperm.mem_iff.mpr hmem
      obtain ⟨h1, h2⟩ := scanHighestRes_min rest2 (0, v2) 1
      rcases List.mem_cons.mp hw with h | h
      · rw [h]; exact h1
      · exact h2 _ h
    by_contra hne
    have hlt := huniq (selectHighestRes v2 rest2).2 hmem2 hne
    exact absurd hmin2 (not_le.mpr hlt)
  · intro out h
    simp only [create_feature_matrix, List.map_cons, any_isNone_map_some,
      Bool.false_eq_true, if_false, filterMap_id_map_some,
      assembleAccepted] at h
    split at h
    · exact absurd h (by simp)
    · simp only [Except.ok.injEq, Option.some.injEq] at h
      rw [← h]

/-- Evaluation of the selection on the concrete pair va0, vb0: the second
volume has the smaller spacing product and is selected at index 1. -/
theorem select_va0_vb0 : selectHighestRes va0 [vb0] = (1, vb0) := by
  have h1 : volRes vb0 < volRes va0 := by
    norm_num [volRes, spacingProd, va0, vb0]
  simp [selectHighestRes, scanHighestRes, h1]

/-- Evaluation of the whole assembly on the concrete pair va0, vb0 with no
roi: the result carries the overridden frame, and the stored list has the
selected entry replaced by the volume with the overridden frame. -/
theorem cfm_run_va0_vb0 :
    create_feature_matrix conform0 [some va0, some vb0] none =
      (Except.ok (some out0), [some va0, some (Volume.mk newF0 (2, 2, 2))]) := by
  have hf : List.filterMap id [some vb0] = [vb0] := rfl
  have hany : [some vb0].any (fun ov => ov.isNone) = false := rfl
  simp only [create_feature_matrix, hf, hany, Bool.false_eq_true, if_false,
    select_va0_vb0]
  decide

/-- Witness for C6 at two concrete volumes of spacings (3, 3, 3) and
(2, 2, 2), listed in both orders. -/
theorem C6_reference_selection_witness :
    ((selectHighestRes va0 [vb0]).2 ∈ va0 :: [vb0])
    ∧ (∀ u ∈ va0 :: [vb0], volRes (selectHighestRes va0 [vb0]).2 ≤ volRes u)
    ∧ ((selectHighestRes vb0 [va0]).2 = (selectHighestRes va0 [vb0]).2)
    ∧ (out0.frameofreference =
        overrideSpacing (selectHighestRes va0 [vb0]).2.frameofreference) := by
  have h := C6_reference_selection conform0 va0 [vb0]
  refine ⟨h.1, h.2.1, ?_, ?_⟩
  · refine h.2.2.1 vb0 [va0] (List.Perm.swap va0 vb0 []) ?_
    rw [select_va0_vb0]
    intro u hu hne
    rcases List.mem_cons.mp hu with h1 | h1
    · subst h1
      norm_num [volRes, spacingProd, va0, vb0]
    · simp only [List.mem_cons, List.not_mem_nil, or_false] at h1
      subst h1
      exact absurd rfl hne
  · refine h.2.2.2 out0 ?_
    simp only [List.map_cons, List.map_nil]
    rw [cfm_run_va0_vb0]

/-! ## Claim C7 -/

/-- C7 counterexample: assembly with no roi mutates its input — after the
call the volume list differs from what was passed in, because the spacing of
the selected volume frame of reference was overwritten in place. -/
theorem C7_input_mutated_counterexample :
    (create_feature_matrix conform0 [some va0, some vb0] none).2 ≠
      [some va0, some vb0] := by
  rw [cfm_run_va0_vb0]
  decide

/-- C7 amended: create_feature_matrix leaves every input volume unchanged —
when an roi is supplied, when the input list is empty — except that in the
no-roi case the spacing of the selected highest-resolution volume frame of
reference is overwritten in place with (1, 1, 1): exactly the entry at the
selected index changes (from the selected volume to the same volume with the
overridden frame), and every other entry is untouched. -/
theorem C7_mutation_localized
    (conform : Volume → FrameOfReference → Volume) :
    (∀ vols r, (create_feature_matrix conform vols (some r)).2 = vols)
    ∧ ((create_feature_matrix conform ([] : List (Option Volume)) none).2 = [])
    ∧ (∀ v rest,
        (((v :: rest).map some).get? (selectHighestRes v rest).1 =
          some (some (selectHighestRes v rest).2))
        ∧ ((create_feature_matrix conform ((v :: rest).map some) none).2).get?
              (selectHighestRes v rest).1 =
            some (some { (selectHighestRes v rest).2 with
              frameofreference :=
                overrideSpacing (selectHighestRes v rest).2.frameofreference })
        ∧ ∀ j, j ≠ (selectHighestRes v rest).1 →
            ((create_feature_matrix conform
                ((v :: rest).map some) none).2).get? j =
              ((v :: rest).map some).get? j) := by
  refine ⟨?_, rfl, ?_⟩
  · intro vols r
    cases vols <;> rfl
  · intro v rest
    have hget : (v :: rest).get? (selectHighestRes v rest).1 =
        some (selectHighestRes v rest).2 := by
      refine scanHighestRes_get rest (0, v) 1 (v :: rest) rfl ?_
      intro j
      rw [Nat.add_comm]
      rfl
    have hlen : (selectHighestRes v rest).1 < (v :: rest).length :=
      (List.get?_eq_some.mp hget).1
    have hsnd : (create_feature_matrix conform ((v :: rest).map some) none).2 =
        ((v :: rest).map some).set (selectHighestRes v rest).1
          (some { (selectHighestRes v rest).2 with
            frameofreference :=
              overrideSpacing (selectHighestRes v rest).2.frameofreference }) := by
      simp only [create_feature_matrix, List.map_cons, any_isNone_map_some,
        Bool.false_eq_true, if_false, filterMap_id_map_some]
    refine ⟨?_, ?_, ?_⟩
    · rw [List.get?_map, hget]
      rfl
    · rw [hsnd]
      exact List.get?_set_eq_of_lt _ (by simpa using hlen)
    · intro j hj
      rw [hsnd]
      exact List.get?_set_ne _ _ (Ne.symm hj)

/-- Witness for C7 amended: with an roi the list is returned unchanged, and
in the no-roi case the non-selected entry at index 0 is untouched. -/
theorem C7_mutation_localized_witness :
    ((create_feature_matrix conform0 [some va0] (some r0)).2 = [some va0])
    ∧ ((create_feature_matrix conform0 [some va0, some vb0] none).2.get? 0 =
        [some va0, some vb0].get? 0) := by
  have h := C7_mutation_localized conform0
  refine ⟨h.1 [some va0] r0, ?_⟩
  exact (h.2.2 va0 [vb0]).2.2 0 (by rw [select_va0_vb0]; decide)

/-! ## Claim C10 -/

/-- C10: a non-empty input list in which every volume is rejected (one entry
is None, the other has a conformed shape disagreeing with the reference
shape) makes create_feature_matrix raise (the concatenation of an empty list,
a ValueError), while the empty input list returns the null result — total
rejection is not handled as the EmptyInput case. -/
theorem C10_total_rejection_raises :
    create_feature_matrix conformId [none, some vbad0] (some r0) =
      (Except.error PyErr.valueError, [none, some vbad0])
    ∧ create_feature_matrix conformId ([] : List (Option Volume)) (some r0) =
      (Except.ok none, []) := by
  constructor
  · decide
  · rfl

/-! ## Claim C8 -/

/-- C8: for a subject whose image volume, roi and feature files are all
present, DOICluster returns code 0 and writes the output when no output
exists yet; returns code 10 and writes nothing when the output exists and
recluster is false; and returns code 11 and rewrites the output when the
output exists and recluster is true. -/
theorem C8_skip_recluster_codes (doi : Doi) (recluster : Bool)
    (himg : doi.hasImageVolume = true) (hroi : doi.hasROI = true)
    (hfeat : doi.featureFilesFound = true) :
    (doi.clusterPickleExists = false → DOICluster doi recluster = (0, true))
    ∧ (doi.clusterPickleExists = true → recluster = false →
        DOICluster doi recluster = (10, false))
    ∧ (doi.clusterPickleExists = true → recluster = true →
        DOICluster doi recluster = (11, true)) := by
  refine ⟨?_, ?_, ?_⟩
  · intro hpe
    simp [DOICluster, hpe, himg, hroi, hfeat]
  · intro hpe hrec
    simp [DOICluster, hpe, hrec]
  · intro hpe hrec
    simp [DOICluster, hpe, hrec, himg, hroi, hfeat]

/-- Witness for C8 on concrete subjects: a first run creates the output with
code 0, a rerun without recluster skips with code 10, a rerun with recluster
rewrites with code 11. -/
theorem C8_skip_recluster_codes_witness :
    (DOICluster doiFresh false = (0, true))
    ∧ (DOICluster doiExisting false = (10, false))
    ∧ (DOICluster doiExisting true = (11, true)) :=
  ⟨(C8_skip_recluster_codes doiFresh false rfl rfl rfl).1 rfl,
   (C8_skip_recluster_codes doiExisting false rfl rfl rfl).2.1 rfl rfl,
   (C8_skip_recluster_codes doiExisting true rfl rfl rfl).2.2 rfl rfl⟩

/-! ## Claim C9 -/

/-- C9 counterexample: on an empty argument tuple the worker does not return
a result tuple — the unpacking error is caught, but the final return
statement reads the unassigned local doi and the worker raises NameError. -/
theorem C9_short_args_counterexample :
    worker_DOICluster unitOk0 ([] : List Nat) =
      Except.error PyErr.nameError :=
  rfl

/-- C9 amended: for every argument tuple with at least three elements the
worker always returns a result tuple, normalising the unit outcome as the
claim describes (exceptions to 2 with the exception label, the recognised
codes 0, 1, 10, 11 to their labels, anything else to -1 with the unknown
label) and pairing it with the subject identifier; an argument tuple with
fewer than three elements instead makes the caught unpacking error resurface
as NameError at the final return. -/
theorem C9_worker_amended {α : Type} (unit : List α → Except PyErr Int) :
    (∀ (a b c : α) (rest : List α),
        worker_DOICluster unit (a :: b :: c :: rest) =
          Except.ok (expectedWorkerResult (unit (a :: b :: c :: rest)) a))
    ∧ (∀ args : List α, args.length < 3 →
        worker_DOICluster unit args = Except.error PyErr.nameError) := by
  constructor
  · intro a b c rest
    cases hu : unit (a :: b :: c :: rest) with
    | error e => simp [worker_DOICluster, expectedWorkerResult, hu]
    | ok code =>
      simp only [worker_DOICluster, expectedWorkerResult, hu]
      by_cases h0 : code = 0
      · simp [h0]
      · by_cases h1 : code = 1
        · simp [h0, h1]
        · by_cases h10 : code = 10
          · simp [h0, h1, h10]
          · by_cases h11 : code = 11
            · simp [h0, h1, h10, h11]
            · simp [h0, h1, h10, h11]
  · intro args hlen
    rcases args with _ | ⟨a, _ | ⟨b, _ | ⟨c, rest⟩⟩⟩
    · rfl
    · rfl
    · rfl
    · simp only [List.length_cons] at hlen
      omega

/-- Witness for C9 amended: a three-element tuple with an unrecognised unit
code is normalised to -1 with the unknown label, and a one-element tuple
raises NameError. -/
theorem C9_worker_amended_witness :
    (worker_DOICluster unitOk7 [0, 1, 2] = Except.ok (-1, unknownLabel, 0))
    ∧ (worker_DOICluster unitOk7 [0] = Except.error PyErr.nameError) := by
  have h := C9_worker_amended unitOk7
  exact ⟨h.1 0 1 2 [], h.2 [0] (by decide)⟩
